import Mathlib

/-!
Verification of the SiteMonkeys vault caching and refresh pipeline.

This development is a shallow embedding of the Python handlers in
`api/load-vault.py` and `api/chat.py`.  JSON values are modelled by an
inductive type `JVal`; the external libraries used by the handlers
(`json`, `gzip`, `base64`) appear as records of functions, with their
documented behaviour (e.g. `loads (dumps v) = some v`) taken as
hypotheses where a proof needs it.  Every library side effect (Google
Drive calls, KV HTTP calls, exceptions raised inside `try` blocks) is
represented by explicit data, so each handler becomes a total function
from an environment description to its HTTP response and the new cache
state.
-/

/-- Model of a Python JSON value (the values handled by `json.dumps` /
`json.loads` in the handlers).  Numbers are integers: every number the
pipeline serializes is an `int`; floats only occur pre-formatted as
strings. Objects are ordered association lists, mirroring `dict`
insertion order. -/
inductive JVal where
  | null
  | bool (b : Bool)
  | num (n : Int)
  | str (s : String)
  | arr (xs : List JVal)
  | obj (fields : List (String × JVal))

/-- Python `d.get(k)` on a dict: the value at the key, if present. -/
def JVal.get? : JVal → String → Option JVal
  | .obj fs, k => fs.lookup k
  | _, _ => none

/-- Python `d.get(k, default)` on a dict. -/
def JVal.getD (v : JVal) (k : String) (dflt : JVal) : JVal :=
  (v.get? k).getD dflt

/-- Python truthiness of a JSON value (`if x:`). -/
def JVal.pyTruthy : JVal → Bool
  | .null => false
  | .bool b => b
  | .num n => n != 0
  | .str s => s != ""
  | .arr xs => !xs.isEmpty
  | .obj fs => !fs.isEmpty

/-- Python truthiness of `d.get(k)`, where a missing key gives `None`. -/
def JVal.truthyGet (v : JVal) (k : String) : Bool :=
  match v.get? k with
  | none => false
  | some w => w.pyTruthy

/-- Whether the value is a dict (`isinstance(x, dict)`). -/
def JVal.isObj : JVal → Bool
  | .obj _ => true
  | _ => false

/-! ### Python string primitives

`str.strip`, `str.split` and `str.join` are re-implemented over
`List Char` so that all definitions compute by structural recursion
(the Lean core versions use well-founded recursion on byte positions,
which the kernel does not unfold). -/

/-- Python `s.strip()`: drop leading and trailing whitespace. -/
def pyStrip (s : String) : String :=
  String.mk (((s.data.dropWhile Char.isWhitespace).reverse.dropWhile
    Char.isWhitespace).reverse)

/-- Split a character list at every occurrence of `c`
(Python `s.split(c)`, which always returns at least one piece). -/
def splitOnChar (c : Char) : List Char → List (List Char)
  | [] => [[]]
  | x :: xs =>
    let r := splitOnChar c xs
    if x = c then [] :: r
    else
      match r with
      | [] => [[x]]
      | h :: t => (x :: h) :: t

/-- Python `sep.join(pieces)`. -/
def joinSep (sep : String) : List String → String
  | [] => ""
  | [x] => x
  | x :: y :: xs => x ++ sep ++ joinSep sep (y :: xs)

/-- Helper for `strContains`: does `needle` occur in the list? -/
def strContainsAux (needle : List Char) : List Char → Bool
  | [] => needle.isPrefixOf []
  | c :: rest => needle.isPrefixOf (c :: rest) || strContainsAux needle rest

/-- Python `needle in hay` on strings (substring containment). -/
def strContains (hay needle : String) : Bool :=
  strContainsAux needle.data hay.data

/-- Python `s.endswith(suffix)` (the core `String.endsWith` uses byte
positions the kernel cannot unfold). -/
def pyEndsWith (s suffix : String) : Bool :=
  suffix.data.isSuffixOf s.data

/-! ### Content Extractor (`extract_text_from_docx`)

The `zipfile` / `xml.etree` library calls are modelled by data: a
`DocxModel` records whether `zipfile.ZipFile` raises, whether the
archive contains the entry `word/document.xml`, whether
`ET.fromstring` raises on it, and otherwise the `.text` attributes of
the `w:t` elements in document order (`None` modelled as `none`). -/

/-- Outcome of `zip_file.read` on `word/document.xml` followed by XML
parsing: the entry may be absent (a `KeyError` whose message is
`keyErrMsg`), the XML parse may raise, or it yields the text nodes. -/
inductive DocRead where
  | missing (keyErrMsg : String)
  | found (xml : Except String (List (Option String)))

/-- Model of a DOCX input as seen through the archive and XML
libraries. `zip = .error e` models `zipfile.ZipFile` raising. -/
structure DocxModel where
  zip : Except String DocRead

/-- Lines 26-34 of `api/load-vault.py`: keep truthy `elem.text` values,
join with single spaces, split into lines, strip each line, drop the
blank ones, and re-join with newlines. -/
def docxCleanJoin (texts : List (Option String)) : String :=
  let text_content := texts.filterMap fun t =>
    t.bind fun s => if s == "" then none else some s
  let extracted_text := joinSep " " text_content
  let lines := (splitOnChar (Char.ofNat 10) extracted_text.data).map
    fun l => pyStrip (String.mk l)
  joinSep "\n" (lines.filter fun l => l != "")

/-- `extract_text_from_docx` from `api/load-vault.py` (lines 17-36).
Every library failure lands in the single `except` clause. -/
def extract_text_from_docx (d : DocxModel) : String :=
  match d.zip with
  | .error e => "[DOCX text extraction failed: " ++ e ++ "]"
  | .ok (.missing e) => "[DOCX text extraction failed: " ++ e ++ "]"
  | .ok (.found (.error e)) => "[DOCX text extraction failed: " ++ e ++ "]"
  | .ok (.found (.ok texts)) => docxCleanJoin texts

/-- `extract_text_from_docx` from
`api/functions/migrate-vault/index.py` (lines 235-265): it checks
`namelist()` before reading (returning a fixed diagnostic instead of
catching a `KeyError`) and replaces an empty result by a fixed
diagnostic. -/
def extract_text_from_docx_migrate (d : DocxModel) : String :=
  match d.zip with
  | .error e => "[DOCX text extraction failed: " ++ e ++ "]"
  | .ok (.missing _) => "[DOCX: No document.xml found]"
  | .ok (.found (.error e)) => "[DOCX text extraction failed: " ++ e ++ "]"
  | .ok (.found (.ok texts)) =>
    let result := docxCleanJoin texts
    if result == "" then "[DOCX: No text content found]" else result

/-! ### External library models

The `json`, `gzip` and `base64` modules are external to the
repository: they appear as records of functions, and the documented
round-trip laws (`json.loads` inverts `json.dumps`, `gzip.decompress`
inverts `gzip.compress`, `base64.b64decode` inverts
`base64.b64encode`) are assumed pointwise as hypotheses of the
theorems that need them.  Bytes are lists of naturals. -/

/-- Functions of the Python `json` module: `dumps` serializes, `loads`
parses (returning `none` where the library raises
`json.JSONDecodeError`). -/
structure JsonFns where
  dumps : JVal → String
  loads : String → Option JVal

/-- The composite `gzip.compress(s.encode("utf-8"))` and its reverse
`gzip.decompress(b).decode("utf-8")` (`none` models a raised
exception). -/
structure GzipFns where
  compress : String → List Nat
  decompress : List Nat → Option String

/-- The composite `base64.b64encode(b).decode("utf-8")` and
`base64.b64decode(s)` (`none` models a raised exception, including the
`TypeError` on non-string input which the model rules out by typing). -/
structure B64Fns where
  encode : List Nat → String
  decode : String → Option (List Nat)

/-! ### Cache Codec (`store_vault_in_kv` / `get_vault_from_kv`) -/

/-- The metadata object built at lines 95-100 of
`api/load-vault.py`: `original_size` is `len(vault_json)` and
`compressed_size` is the length of the base64 text. -/
def compressedEntry (J : JsonFns) (G : GzipFns) (B : B64Fns)
    (vault_data : JVal) : JVal :=
  let vault_json := J.dumps vault_data
  let encoded := B.encode (G.compress vault_json)
  .obj [("compressed", .bool true),
        ("data", .str encoded),
        ("original_size", .num vault_json.length),
        ("compressed_size", .num encoded.length)]

/-- The string written to the KV key `sitemonkeys_vault_v2` by
`store_vault_in_kv` (lines 82-117): the raw JSON dump, or the dump of
the compressed-entry object when the dump exceeds 80000 characters
(`json.dumps` output is ASCII by default, so characters and bytes
agree). -/
def storedValue (J : JsonFns) (G : GzipFns) (B : B64Fns)
    (vault_data : JVal) : String :=
  let vault_json := J.dumps vault_data
  if vault_json.length > 80000 then J.dumps (compressedEntry J G B vault_data)
  else vault_json

/-- Lines 180-206 of `get_vault_from_kv`: strip the KV response text,
treat empty or `null` as a miss, parse it, and if the result is a dict
with a truthy `compressed` field, base64-decode its `data` field,
decompress, and parse the result.  Every raised exception in this
region is caught and yields `None`. -/
def readStored (J : JsonFns) (G : GzipFns) (B : B64Fns)
    (text : String) : Option JVal :=
  let response_text := pyStrip text
  if response_text == "" || response_text == "null" then none
  else
    match J.loads response_text with
    | none => none
    | some data =>
      if data.isObj && data.truthyGet "compressed" then
        match data.get? "data" with
        | some (.str b64s) =>
          match B.decode b64s with
          | none => none
          | some bytes =>
            match G.decompress bytes with
            | none => none
            | some s => J.loads s
        | _ => none
      else some data

/-! ### KV store state -/

/-- State of the external KV store at the key `sitemonkeys_vault_v2`.
`available` folds together the presence of the KV env vars and the
success of the HTTP calls; `value` is the current stored string
(`none` makes the REST `get` answer `null`). -/
structure KVEnv where
  available : Bool
  value : Option String

/-- Observable actions of the vault handler, in emission order. -/
inductive VEvent where
  | sendStatus (code : Nat)
  | driveLoad
  | kvRead
  | kvWrite (text : String)

/-- `get_vault_from_kv` (lines 156-216) on the modelled KV state. -/
def get_vault_from_kv (J : JsonFns) (G : GzipFns) (B : B64Fns)
    (kv : KVEnv) : Option JVal :=
  if !kv.available then none
  else
    match kv.value with
    | none => none
    | some text => readStored J G B text

/-- `store_vault_in_kv` (lines 67-154) on the modelled KV state:
returns the new state and the returned boolean.  The secondary
diagnostics key `sitemonkeys_vault_v2_index` (lines 127-144) does not
affect the main entry and is not modelled. -/
def store_vault_in_kv (J : JsonFns) (G : GzipFns) (B : B64Fns)
    (kv : KVEnv) (vault_data : JVal) : KVEnv × Bool :=
  if !kv.available then (kv, false)
  else ({ kv with value := some (storedValue J G B vault_data) }, true)

/-! ### Document source model (Google Drive) -/

/-- Bytes returned by `get_media`, as seen by their two consumers:
`.decode("utf-8")` (which may raise) and `extract_text_from_docx`. -/
structure FileBytes where
  utf8 : Except String String
  docx : DocxModel

/-- One file of the Drive listing.  `size` is the value interpolated
into the unsupported-format placeholder (`file.get("size",
"Unknown")`, a decimal string or `Unknown`).  `getMedia` and
`exportPlain` record the outcomes of the Drive API calls; `.error`
carries the exception message. -/
structure DriveFile where
  name : String
  mimeType : String
  size : String
  getMedia : Except String FileBytes
  exportPlain : Except String String

/-- The `file_content` computed by the dispatch at lines 267-311 of
`api/load-vault.py`; `none` is the `continue` taken for a subfolder
(no section is appended). -/
def fileContent (f : DriveFile) : Option String :=
  if strContains f.mimeType "text/plain" || pyEndsWith f.name ".txt" then
    some (match f.getMedia with
      | .ok b =>
        match b.utf8 with
        | .ok s => s
        | .error e => "[ERROR reading text file: " ++ e ++ "]"
      | .error e => "[ERROR reading text file: " ++ e ++ "]")
  else if f.mimeType == "application/vnd.google-apps.document" then
    some (match f.exportPlain with
      | .ok s => s
      | .error e => "[Google Doc - Export failed: " ++ e ++ "]")
  else if strContains f.mimeType
      "application/vnd.openxmlformats-officedocument.wordprocessingml.document"
      || pyEndsWith f.name ".docx" then
    some (match f.getMedia with
      | .ok b => extract_text_from_docx b.docx
      | .error e => "[DOCX file - Access failed: " ++ e ++ "]")
  else if f.mimeType == "application/vnd.google-apps.folder" then
    none
  else
    some ("[File type: " ++ f.mimeType ++ " - Size: " ++ f.size
      ++ " bytes - Skipped unsupported format]")

/-- The section appended to `vault_content` for one file
(line 313; nothing for a skipped subfolder). -/
def fileSection (f : DriveFile) : String :=
  match fileContent f with
  | none => ""
  | some c => "\n=== " ++ f.name ++ " ===\n" ++ c ++ "\n"

/-- One folder of the Drive listing; `files` is the outcome of the
per-folder file listing (`.error` models the listing call raising,
which aborts the whole assembly). -/
structure DriveFolder where
  name : String
  files : Except String (List DriveFile)

/-- Line 235: the fixed allow-list of target folder names. -/
def target_folders : List String :=
  ["00_EnforcementShell", "01_Core_Directives", "VAULT_MEMORY_FILES"]

/-- The inner file loop (lines 259-317): append one section per
file to the running buffer. -/
def runFiles : List DriveFile → String → String
  | [], c => c
  | f :: rest, c => runFiles rest (c ++ fileSection f)

/-- The mutable state of `load_vault_content`. -/
structure LoopState where
  vault_content : String
  loaded_folders : List String
  total_files : Nat

/-- The folder loop (lines 237-317).  A folder outside the allow-list
is skipped entirely; for a retained folder the name and a folder
banner are recorded before the file listing, so a listing exception
(returned as `some msg`) aborts the loop with the partial state. -/
def runFolders : List DriveFolder → LoopState → LoopState × Option String
  | [], st => (st, none)
  | f :: rest, st =>
    if target_folders.contains f.name then
      let st1 : LoopState :=
        { st with
          loaded_folders := st.loaded_folders ++ [f.name]
          vault_content := st.vault_content ++ "\n--- FOLDER: " ++ f.name ++ " ---\n" }
      match f.files with
      | .error e => (st1, some e)
      | .ok fs =>
        runFolders rest
          { st1 with
            total_files := st1.total_files + fs.length
            vault_content := runFiles fs st1.vault_content }
    else runFolders rest st

/-- Outcome of the Drive service: `failure` models
`get_google_drive_service` or the top-level folder listing raising. -/
inductive DriveOutcome where
  | failure (msg : String)
  | folders (fs : List DriveFolder)

/-- Line 220: the initial buffer. -/
def vaultHeader : String := "=== SITEMONKEYS BUSINESS VALIDATION VAULT ===\n\n"

/-- Line 327: the sentinel put into `loaded_folders` on a Drive error. -/
def driveErrorBanner : String := "Error - Could not connect to Google Drive"

/-- `load_vault_content` (lines 218-330).  On any exception the
partial buffer is kept, the error is appended, `loaded_folders` is
replaced by the sentinel and `total_files` reset to 0.  The banner at
line 232 always interpolates `0` because `loaded_folders` is still
empty there. -/
def load_vault_content (drive : DriveOutcome) : LoopState :=
  match drive with
  | .failure msg =>
    { vault_content := vaultHeader ++ "\n[Google Drive connection error: " ++ msg ++ "]\n"
      loaded_folders := [driveErrorBanner]
      total_files := 0 }
  | .folders fs =>
    let st0 : LoopState :=
      { vault_content := vaultHeader
          ++ "\n=== LIVE VAULT FOLDERS LOADED (" ++ toString (0 : Nat) ++ " folders) ===\n"
        loaded_folders := []
        total_files := 0 }
    match runFolders fs st0 with
    | (st, none) =>
      { st with
        vault_content := st.vault_content ++ "\n=== VAULT SUMMARY ===\nFolders: "
          ++ toString st.loaded_folders.length ++ "\nFiles processed: "
          ++ toString st.total_files ++ "\n" }
    | (st, some e) =>
      { vault_content := st.vault_content ++ "\n[Google Drive connection error: " ++ e ++ "]\n"
        loaded_folders := [driveErrorBanner]
        total_files := 0 }

/-! ### The vault handler (`handler.do_GET`, lines 332-424)

The floating-point cost text, token_count times 0.002 over 1000
rendered to four decimals, is abstracted as a function
`cost : Nat → String` of the token count
(it is a pure function of its input, which is all the claims use). -/

/-- The `vault_data` dict built at lines 354-362. -/
def vaultData (cost : Nat → String) (st : LoopState) : JVal :=
  let token_count : Nat := st.vault_content.length / 4
  .obj [("vault_content", .str st.vault_content),
        ("tokens", .num token_count),
        ("estimated_cost", .str (cost token_count)),
        ("folders_loaded", .arr (st.loaded_folders.map .str)),
        ("total_files", .num st.total_files),
        ("last_updated", .str "refresh_requested"),
        ("vault_status", .str "operational")]

/-- The refresh response (lines 368-378). -/
def refreshResponse (cost : Nat → String) (st : LoopState) (kv_stored : Bool) : JVal :=
  let token_count : Nat := st.vault_content.length / 4
  .obj [("status", .str "refreshed"),
        ("vault_content", .str st.vault_content),
        ("tokens", .num token_count),
        ("estimated_cost", .str (cost token_count)),
        ("folders_loaded", .arr (st.loaded_folders.map .str)),
        ("total_files", .num st.total_files),
        ("kv_stored", .bool kv_stored),
        ("message", .str ("Vault refreshed: " ++ toString st.loaded_folders.length
          ++ " folders, " ++ toString st.total_files ++ " files")),
        ("vault_status", .str "operational")]

/-- The cached-data response (lines 387-396). -/
def cachedResponse (cv : JVal) : JVal :=
  .obj [("status", .str "success"),
        ("vault_content", cv.getD "vault_content" (.str "")),
        ("tokens", cv.getD "tokens" (.num 0)),
        ("estimated_cost", cv.getD "estimated_cost" (.str "$0.00")),
        ("folders_loaded", cv.getD "folders_loaded" (.arr [])),
        ("total_files", cv.getD "total_files" (.num 0)),
        ("vault_status", cv.getD "vault_status" (.str "operational")),
        ("message", .str "Using cached vault data from KV")]

/-- The needs-refresh response (lines 399-409). -/
def needsRefreshResponse : JVal :=
  .obj [("status", .str "success"),
        ("needs_refresh", .bool true),
        ("vault_content", .str ""),
        ("tokens", .num 0),
        ("estimated_cost", .str "$0.00"),
        ("folders_loaded", .arr []),
        ("total_files", .num 0),
        ("vault_status", .str "needs_refresh"),
        ("message", .str "No vault data found - please refresh")]

/-- The catch-all error response (lines 415-420). -/
def vaultErrorResponse (e : String) : JVal :=
  .obj [("status", .str "error"),
        ("error", .str e),
        ("vault_status", .str "error"),
        ("message", .str "Vault operation failed - check configuration")]

/-- What one invocation of the vault handler produced: the HTTP status
code (sent, with headers, before the `try` block), the observable
actions in order, the JSON body written, and the new KV state. -/
structure GetResult where
  statusCode : Nat
  events : List VEvent
  body : JVal
  kv : KVEnv

/-- `handler.do_GET` (lines 333-421).  `refresh` is the
`?refresh=true` test of line 344; `unexpected` models an exception
raised inside the `try` block before the branching (e.g. by
`urlparse`) — every deeper failure is absorbed by the inner handlers
and is modelled by `drive` and `kv`.  The `send_response(200)` and
headers of lines 334-339 precede all vault and cache work. -/
def vault_do_GET (J : JsonFns) (G : GzipFns) (B : B64Fns) (cost : Nat → String)
    (refresh : Bool) (drive : DriveOutcome) (kv : KVEnv)
    (unexpected : Option String) : GetResult :=
  match unexpected with
  | some e =>
    { statusCode := 200, events := [.sendStatus 200]
      body := vaultErrorResponse e, kv := kv }
  | none =>
    if refresh then
      let st := load_vault_content drive
      let stored := store_vault_in_kv J G B kv (vaultData cost st)
      { statusCode := 200
        events := [.sendStatus 200, .driveLoad] ++
          (if kv.available then [.kvWrite (storedValue J G B (vaultData cost st))] else [])
        body := refreshResponse cost st stored.2
        kv := stored.1 }
    else
      let cached := get_vault_from_kv J G B kv
      { statusCode := 200
        events := [.sendStatus 200, .kvRead]
        body :=
          match cached with
          | some cv =>
            if cv.pyTruthy && cv.isObj && cv.truthyGet "vault_content" then
              cachedResponse cv
            else needsRefreshResponse
          | none => needsRefreshResponse
        kv := kv }

/-- `handler.do_POST` (lines 423-424) just delegates to `do_GET`. -/
def vault_do_POST : JsonFns → GzipFns → B64Fns → (Nat → String)
    → Bool → DriveOutcome → KVEnv → Option String → GetResult :=
  vault_do_GET

/-! ### Chat endpoint (`api/chat.py`) -/

/-- Outcome of reading the request body and parsing it with
`json.loads` (a parse failure carries the exception message). -/
inductive ChatBody where
  | badJson (msg : String)
  | json (v : JVal)

/-- Reply of the external completion API on success:
`response.choices[0].message.content` (which may be `None`) and the
usage counters. -/
structure LlmReply where
  content : JVal
  prompt_tokens : Nat
  completion_tokens : Nat
  total_tokens : Nat

/-- Environment of one `do_POST` call on the chat handler.
`contentLength` is the outcome of `int(self.headers["Content-Length"])`
(missing header or non-numeric value raises); `llm` is the outcome of
constructing the OpenAI client and calling the completion API;
`attrMsg` is the message of the `AttributeError` the interpreter
raises for `request_data.get(...)` when the parsed body is not a
dict. -/
structure ChatInput where
  contentLength : Except String Nat
  body : ChatBody
  llm : Except String LlmReply
  attrMsg : String

/-- The uniform error body of lines 110-114 (always written with
HTTP status 500). -/
def chatErrorBody (e : String) : JVal :=
  .obj [("success", .bool false),
        ("error", .str e),
        ("response", .str "I apologize, but I encountered an error processing your request. Please try again or contact support if the issue persists.")]

/-- The success body of lines 84-95.  `calculate_cost` does
floating-point formatting and is abstracted as
`costFmt prompt_tokens completion_tokens`. -/
def chatSuccessBody (costFmt : Nat → Nat → String) (r : LlmReply) : JVal :=
  .obj [("success", .bool true),
        ("response", r.content),
        ("model_used", .str "gpt-4-turbo"),
        ("tokens_used", .num r.total_tokens),
        ("cost_info", .obj
          [("message_cost", .str (costFmt r.prompt_tokens r.completion_tokens)),
           ("input_tokens", .num r.prompt_tokens),
           ("output_tokens", .num r.completion_tokens),
           ("total_tokens", .num r.total_tokens)])]

/-- Result of `handler.do_POST` in `api/chat.py`: whether control
reached the external-completion step (line 39), the HTTP status code,
and the JSON body written. -/
structure ChatResult where
  reachedExternal : Bool
  statusCode : Nat
  body : JVal

/-- `handler.do_POST` of `api/chat.py` (lines 25-122).  The
`vault_memory` field only flows into the prompt text, which the
response does not echo, so it does not appear in the result.  An empty
or missing `message` raises `ValueError("No message provided")`
(line 36), caught by the single `except` clause which renders
`str(e)`. -/
def chat_do_POST (costFmt : Nat → Nat → String) (inp : ChatInput) : ChatResult :=
  match inp.contentLength with
  | .error e => { reachedExternal := false, statusCode := 500, body := chatErrorBody e }
  | .ok _ =>
    match inp.body with
    | .badJson e => { reachedExternal := false, statusCode := 500, body := chatErrorBody e }
    | .json v =>
      match v with
      | .obj fs =>
        let user_message := (fs.lookup "message").getD (.str "")
        if !user_message.pyTruthy then
          { reachedExternal := false, statusCode := 500
            body := chatErrorBody "No message provided" }
        else
          match inp.llm with
          | .error e => { reachedExternal := true, statusCode := 500, body := chatErrorBody e }
          | .ok r => { reachedExternal := true, statusCode := 200, body := chatSuccessBody costFmt r }
      | _ =>
        { reachedExternal := false, statusCode := 500, body := chatErrorBody inp.attrMsg }

/-! ### Degenerate library instances, used to instantiate witnesses -/

/-- A `json` model that parses nothing (for witnesses that never parse). -/
def jsonNone : JsonFns := { dumps := fun _ => "", loads := fun _ => none }

/-- A `gzip` model that decompresses nothing. -/
def gzipNone : GzipFns := { compress := fun _ => [], decompress := fun _ => none }

/-- A `base64` model that decodes nothing. -/
def b64None : B64Fns := { encode := fun _ => "", decode := fun _ => none }

/-- A fixed cost formatter. -/
def cost0 : Nat → String := fun _ => "$0.0000"

/-! ### Claims about the chat endpoint -/

/-- C7: a chat request whose `message` field is empty or absent fails
with `success:false` and error `No message provided` before control
reaches the external completion step. -/
theorem chat_empty_message_fails_fast
    (costFmt : Nat → Nat → String) (inp : ChatInput) (fs : List (String × JVal))
    (hlen : ∃ n, inp.contentLength = .ok n)
    (hbody : inp.body = .json (.obj fs))
    (hmsg : fs.lookup "message" = none ∨ fs.lookup "message" = some (.str "")) :
    chat_do_POST costFmt inp =
      { reachedExternal := false, statusCode := 500
        body := chatErrorBody "No message provided" } := by
  obtain ⟨n, hn⟩ := hlen
  unfold chat_do_POST
  rw [hn, hbody]
  rcases hmsg with h | h <;> simp [h, JVal.pyTruthy]

/-- Witness for C7: the concrete empty-body request. -/
theorem chat_empty_message_fails_fast_witness :
    chat_do_POST (fun _ _ => "0.0000")
      { contentLength := .ok 0, body := .json (.obj []), llm := .error "down"
        attrMsg := "attr" } =
      { reachedExternal := false, statusCode := 500
        body := chatErrorBody "No message provided" } :=
  chat_empty_message_fails_fast (fun _ _ => "0.0000") _ [] ⟨0, rfl⟩ rfl (Or.inl rfl)

/-- C8: whatever the environment does (bad Content-Length header,
malformed JSON body, non-dict body, upstream completion failure), the
chat handler writes a JSON object containing a boolean `success`
field — never an empty body or a raw trace. -/
theorem chat_response_always_json_success
    (costFmt : Nat → Nat → String) (inp : ChatInput) :
    (chat_do_POST costFmt inp).body.isObj = true ∧
    ∃ b : Bool, (chat_do_POST costFmt inp).body.get? "success" = some (.bool b) := by
  unfold chat_do_POST
  rcases inp with ⟨cl, body, llm, am⟩
  cases cl with
  | error e => exact ⟨rfl, false, rfl⟩
  | ok n =>
    cases body with
    | badJson e => exact ⟨rfl, false, rfl⟩
    | json v =>
      cases v with
      | null => exact ⟨rfl, false, rfl⟩
      | bool b => exact ⟨rfl, false, rfl⟩
      | num m => exact ⟨rfl, false, rfl⟩
      | str s => exact ⟨rfl, false, rfl⟩
      | arr xs => exact ⟨rfl, false, rfl⟩
      | obj fs =>
        dsimp only
        split
        · exact ⟨rfl, false, rfl⟩
        · cases llm with
          | error e => exact ⟨rfl, false, rfl⟩
          | ok r => exact ⟨rfl, true, rfl⟩

/-! ### Claims about the vault handler -/

/-- C10: the vault handler always answers HTTP 200 — the status line
is emitted before any vault or cache work, `do_POST` delegates to
`do_GET`, and an exception inside the `try` block surfaces only as
`status: error` inside the JSON body. -/
theorem vault_handler_always_200
    (J : JsonFns) (G : GzipFns) (B : B64Fns) (cost : Nat → String)
    (refresh : Bool) (drive : DriveOutcome) (kv : KVEnv) (u : Option String) :
    (vault_do_GET J G B cost refresh drive kv u).statusCode = 200 ∧
    (vault_do_GET J G B cost refresh drive kv u).events.head? =
      some (.sendStatus 200) ∧
    vault_do_POST J G B cost refresh drive kv u =
      vault_do_GET J G B cost refresh drive kv u ∧
    ∀ e, (vault_do_GET J G B cost refresh drive kv (some e)).body =
      vaultErrorResponse e := by
  refine ⟨?_, ?_, rfl, fun e => rfl⟩ <;> cases u <;> cases refresh <;> rfl

/-- C3: a read request (`refresh=false`) whose cache read comes back
empty (miss or decode failure) answers the fixed needs-refresh payload
(`vault_status = needs_refresh`, empty content, no folders), writes
nothing to the cache, and never touches the document source. -/
theorem read_miss_needs_refresh
    (J : JsonFns) (G : GzipFns) (B : B64Fns) (cost : Nat → String)
    (drive : DriveOutcome) (kv : KVEnv)
    (hmiss : get_vault_from_kv J G B kv = none) :
    (vault_do_GET J G B cost false drive kv none).body = needsRefreshResponse ∧
    (vault_do_GET J G B cost false drive kv none).kv = kv ∧
    (∀ t, VEvent.kvWrite t ∉ (vault_do_GET J G B cost false drive kv none).events) ∧
    VEvent.driveLoad ∉ (vault_do_GET J G B cost false drive kv none).events ∧
    ∀ drive2, vault_do_GET J G B cost false drive2 kv none =
      vault_do_GET J G B cost false drive kv none := by
  refine ⟨?_, rfl, ?_, ?_, fun drive2 => rfl⟩
  · show (match get_vault_from_kv J G B kv with
      | some cv => if cv.pyTruthy && cv.isObj && cv.truthyGet "vault_content"
          then cachedResponse cv else needsRefreshResponse
      | none => needsRefreshResponse) = needsRefreshResponse
    rw [hmiss]
  · intro t h
    have h2 : VEvent.kvWrite t ∈ [VEvent.sendStatus 200, VEvent.kvRead] := h
    simp at h2
  · intro h
    have h2 : VEvent.driveLoad ∈ [VEvent.sendStatus 200, VEvent.kvRead] := h
    simp at h2

/-- Witness for C3: an unavailable cache is a miss. -/
theorem read_miss_needs_refresh_witness :
    (vault_do_GET jsonNone gzipNone b64None cost0 false (.failure "x")
      { available := false, value := none } none).body = needsRefreshResponse :=
  (read_miss_needs_refresh jsonNone gzipNone b64None cost0 (.failure "x")
    { available := false, value := none } rfl).1

/-- C9: with a fixed environment, reading twice in a row
(`refresh=false`, no intervening refresh) returns identical bodies —
the read path leaves the cache state unchanged. -/
theorem read_twice_identical
    (J : JsonFns) (G : GzipFns) (B : B64Fns) (cost : Nat → String)
    (drive : DriveOutcome) (kv : KVEnv) (u : Option String) :
    (vault_do_GET J G B cost false drive
        (vault_do_GET J G B cost false drive kv u).kv u).body =
      (vault_do_GET J G B cost false drive kv u).body ∧
    (vault_do_GET J G B cost false drive kv u).kv = kv := by
  have hkv : (vault_do_GET J G B cost false drive kv u).kv = kv := by
    cases u <;> rfl
  exact ⟨by rw [hkv], hkv⟩

/-! ### C1: the cache codec round-trip -/

/-- The unit of cached context: the typed fields of the `vault_data`
dict built at lines 354-362. -/
structure VaultPayload where
  vault_content : String
  tokens : Int
  estimated_cost : String
  folders_loaded : List String
  total_files : Int
  last_updated : String
  vault_status : String

/-- The JSON object handed to `json.dumps` for a `VaultPayload`. -/
def VaultPayload.toJVal (p : VaultPayload) : JVal :=
  .obj [("vault_content", .str p.vault_content),
        ("tokens", .num p.tokens),
        ("estimated_cost", .str p.estimated_cost),
        ("folders_loaded", .arr (p.folders_loaded.map .str)),
        ("total_files", .num p.total_files),
        ("last_updated", .str p.last_updated),
        ("vault_status", .str p.vault_status)]

/-- The facts about `json.dumps` output at a value that
`get_vault_from_kv` relies on: `json.loads` inverts it, and the dump
is a non-empty, non-`null` text unchanged by `strip` (true of the real
library, whose dict output starts with a brace). -/
def dumpsParseable (J : JsonFns) (v : JVal) : Prop :=
  J.loads (J.dumps v) = some v ∧ pyStrip (J.dumps v) = J.dumps v ∧
    J.dumps v ≠ "" ∧ J.dumps v ≠ "null"

/-- The constructor `JVal.str` is injective. -/
theorem JVal.str_injective : Function.Injective JVal.str :=
  fun _ _ h => by injection h

/-- C1: decoding the stored cache entry recovers the encoded
VaultPayload exactly, in both branches: a dump over 80000 characters
is stored as the gzip+base64 compressed-entry object with
`compressed=true`, a smaller one is stored as the raw dump, and
`get_vault_from_kv`-style reading (`readStored`) inverts whichever
branch was taken.  The library contracts are assumed pointwise, only
for the branch actually taken. -/
theorem cache_codec_roundtrip (J : JsonFns) (G : GzipFns) (B : B64Fns)
    (p : VaultPayload)
    (hover : 80000 < (J.dumps p.toJVal).length →
      dumpsParseable J (compressedEntry J G B p.toJVal) ∧
      B.decode (B.encode (G.compress (J.dumps p.toJVal))) =
        some (G.compress (J.dumps p.toJVal)) ∧
      G.decompress (G.compress (J.dumps p.toJVal)) = some (J.dumps p.toJVal) ∧
      J.loads (J.dumps p.toJVal) = some p.toJVal)
    (hunder : (J.dumps p.toJVal).length ≤ 80000 → dumpsParseable J p.toJVal) :
    readStored J G B (storedValue J G B p.toJVal) = some p.toJVal ∧
    (80000 < (J.dumps p.toJVal).length →
      storedValue J G B p.toJVal = J.dumps (compressedEntry J G B p.toJVal)) ∧
    ((J.dumps p.toJVal).length ≤ 80000 →
      storedValue J G B p.toJVal = J.dumps p.toJVal) ∧
    (∀ q : VaultPayload, q.toJVal = p.toJVal → q = p) := by
  have hinj : ∀ q : VaultPayload, q.toJVal = p.toJVal → q = p := by
    intro q hq
    cases p
    cases q
    simp only [VaultPayload.toJVal, JVal.obj.injEq, List.cons.injEq, Prod.mk.injEq,
      JVal.str.injEq, JVal.num.injEq, JVal.arr.injEq, true_and, and_true] at hq
    obtain ⟨h1, h2, h3, h4, h5, h6, h7⟩ := hq
    have h4f := List.map_injective_iff.mpr JVal.str_injective h4
    simp_all
  by_cases h : 80000 < (J.dumps p.toJVal).length
  · obtain ⟨⟨hl, hs, hne, hnn⟩, hB, hG, hinner⟩ := hover h
    have hsv : storedValue J G B p.toJVal = J.dumps (compressedEntry J G B p.toJVal) := by
      unfold storedValue
      rw [if_pos h]
    refine ⟨?_, fun _ => hsv, fun hle => absurd h (not_lt.mpr hle), hinj⟩
    rw [hsv]
    unfold readStored
    rw [hs]
    have hcond : ((J.dumps (compressedEntry J G B p.toJVal) == "")
        || (J.dumps (compressedEntry J G B p.toJVal) == "null")) = false := by
      simp only [Bool.or_eq_false_iff, beq_eq_false_iff_ne]
      exact ⟨hne, hnn⟩
    rw [if_neg (by simp [hcond])]
    rw [hl]
    dsimp only
    have hflag : ((compressedEntry J G B p.toJVal).isObj &&
        (compressedEntry J G B p.toJVal).truthyGet "compressed") = true := rfl
    rw [if_pos hflag]
    have hdata : (compressedEntry J G B p.toJVal).get? "data" =
        some (.str (B.encode (G.compress (J.dumps p.toJVal)))) := rfl
    rw [hdata]
    dsimp only
    rw [hB]
    dsimp only
    rw [hG]
    dsimp only
    rw [hinner]
  · have hle : (J.dumps p.toJVal).length ≤ 80000 := not_lt.mp h
    obtain ⟨hl, hs, hne, hnn⟩ := hunder hle
    have hsv : storedValue J G B p.toJVal = J.dumps p.toJVal := by
      unfold storedValue
      rw [if_neg h]
    refine ⟨?_, fun hlt => absurd hlt h, fun _ => hsv, hinj⟩
    rw [hsv]
    unfold readStored
    rw [hs]
    have hcond : ((J.dumps p.toJVal == "") || (J.dumps p.toJVal == "null")) = false := by
      simp only [Bool.or_eq_false_iff, beq_eq_false_iff_ne]
      exact ⟨hne, hnn⟩
    rw [if_neg (by simp [hcond])]
    rw [hl]
    dsimp only
    rw [if_neg (by simp only [show (p.toJVal.isObj && p.toJVal.truthyGet "compressed") = false from rfl]; exact Bool.false_ne_true)]

/-- A sample payload for the codec witnesses. -/
def sampleVault : VaultPayload :=
  { vault_content := "=== SITEMONKEYS BUSINESS VALIDATION VAULT ===\n\n"
    tokens := 11
    estimated_cost := "$0.0000"
    folders_loaded := ["00_EnforcementShell"]
    total_files := 2
    last_updated := "refresh_requested"
    vault_status := "operational" }

/-- An 80001-character JSON text, longer than the 80000 threshold. -/
def bigJson : String := String.mk (List.replicate 80001 'x')

/-- The compressed-entry object produced on the oversized instance. -/
def entryBig : JVal :=
  .obj [("compressed", .bool true), ("data", .str "E"),
        ("original_size", .num 80001), ("compressed_size", .num 1)]

/-- A concrete `json` instance whose dump of the sample payload is
small, exercising the uncompressed branch. -/
def jsonSmall : JsonFns :=
  { dumps := fun _ => "a"
    loads := fun s => if s = "a" then some sampleVault.toJVal else none }

/-- A concrete `json` instance whose dump of the sample payload
exceeds the threshold, exercising the compressed branch: objects
carrying a `compressed` key dump to `A`, everything else to
`bigJson`. -/
def jsonBig : JsonFns :=
  { dumps := fun v => if (v.get? "compressed").isSome then "A" else bigJson
    loads := fun s =>
      if 80000 < s.length then some sampleVault.toJVal
      else if s = "A" then some entryBig
      else none }

/-- A gzip instance matching `jsonBig` pointwise. -/
def gzipBig : GzipFns :=
  { compress := fun _ => [7]
    decompress := fun l => if l = [7] then some bigJson else none }

/-- A base64 instance matching `gzipBig` pointwise. -/
def b64Big : B64Fns :=
  { encode := fun _ => "E"
    decode := fun s => if s = "E" then some [7] else none }

/-- `bigJson` really has 80001 characters. -/
theorem bigJson_length : bigJson.length = 80001 := by
  unfold bigJson
  simp only [String.length_mk, List.length_replicate]

/-- `jsonBig` dumps the sample payload to the oversized text. -/
theorem dumpsBig_sample : jsonBig.dumps sampleVault.toJVal = bigJson := rfl

/-- On the oversized instance the compressed entry is `entryBig`. -/
theorem entryBig_eq :
    compressedEntry jsonBig gzipBig b64Big sampleVault.toJVal = entryBig := by
  unfold compressedEntry entryBig
  rw [dumpsBig_sample]
  dsimp only
  rw [bigJson_length]
  exact rfl

/-- `jsonBig` parses every over-threshold text to the sample payload. -/
theorem loadsBig_over (s : String) (h : 80000 < s.length) :
    jsonBig.loads s = some sampleVault.toJVal := by
  unfold jsonBig
  dsimp only
  rw [if_pos h]

/-- Witness for C1: at concrete library instances, a small dump is
stored raw and an oversized dump is stored compressed, and both decode
back to the sample payload. -/
theorem cache_codec_roundtrip_witness :
    ((jsonSmall.dumps sampleVault.toJVal).length ≤ 80000 ∧
      readStored jsonSmall gzipNone b64None
        (storedValue jsonSmall gzipNone b64None sampleVault.toJVal) =
        some sampleVault.toJVal) ∧
    (80000 < (jsonBig.dumps sampleVault.toJVal).length ∧
      readStored jsonBig gzipBig b64Big
        (storedValue jsonBig gzipBig b64Big sampleVault.toJVal) =
        some sampleVault.toJVal) := by
  constructor
  · refine ⟨by decide, ?_⟩
    exact (cache_codec_roundtrip jsonSmall gzipNone b64None sampleVault
      (fun hlt => absurd hlt (by decide))
      (fun _ => ⟨rfl, rfl, by decide, by decide⟩)).1
  · have hlen : (jsonBig.dumps sampleVault.toJVal).length = 80001 := by
      rw [dumpsBig_sample, bigJson_length]
    have hlt : 80000 < (jsonBig.dumps sampleVault.toJVal).length := by
      rw [hlen]
      norm_num
    refine ⟨hlt, ?_⟩
    have hinner : jsonBig.loads (jsonBig.dumps sampleVault.toJVal) =
        some sampleVault.toJVal := loadsBig_over _ hlt
    refine (cache_codec_roundtrip jsonBig gzipBig b64Big sampleVault
      (fun _ => ⟨?_, rfl, rfl, hinner⟩)
      (fun hle => absurd hlt (not_lt.mpr hle))).1
    rw [entryBig_eq]
    exact ⟨rfl, rfl, by decide, by decide⟩

/-! ### C5: the DOCX extractors never raise -/

/-- C5 counterexample: on an archive that exists but lacks
`word/document.xml`, the migrate-vault extractor returns a bracketed
diagnostic that is not of the form `[<kind> extraction failed:
<reason>]` — it does not even contain the words
`extraction failed:`. -/
theorem docx_migrate_missing_entry_diag_form :
    extract_text_from_docx_migrate { zip := .ok (.missing "no item") } =
      "[DOCX: No document.xml found]" ∧
    strContains
      (extract_text_from_docx_migrate { zip := .ok (.missing "no item") })
      " extraction failed: " = false :=
  ⟨rfl, by decide⟩

/-- C5 amended: both DOCX extractors are total functions into strings
(no input raises).  On any library failure the load-vault extractor
returns `[DOCX text extraction failed: <reason>]`; the migrate-vault
variant returns either that same form or its fixed
missing-entry diagnostic; on success both return the cleaned text,
except that the migrate-vault variant replaces an empty result by its
fixed empty-text diagnostic. -/
theorem docx_extractors_never_raise (d : DocxModel) :
    (∃ e, extract_text_from_docx d = "[DOCX text extraction failed: " ++ e ++ "]" ∧
      (extract_text_from_docx_migrate d = "[DOCX text extraction failed: " ++ e ++ "]" ∨
        extract_text_from_docx_migrate d = "[DOCX: No document.xml found]")) ∨
    (∃ texts, d.zip = .ok (.found (.ok texts)) ∧
      extract_text_from_docx d = docxCleanJoin texts ∧
      (extract_text_from_docx_migrate d = docxCleanJoin texts ∨
        (docxCleanJoin texts = "" ∧
          extract_text_from_docx_migrate d = "[DOCX: No text content found]"))) := by
  obtain ⟨zip⟩ := d
  cases zip with
  | error e => exact Or.inl ⟨e, rfl, Or.inl rfl⟩
  | ok dr =>
    cases dr with
    | missing m => exact Or.inl ⟨m, rfl, Or.inr rfl⟩
    | found xml =>
      cases xml with
      | error e => exact Or.inl ⟨e, rfl, Or.inl rfl⟩
      | ok texts =>
        refine Or.inr ⟨texts, rfl, rfl, ?_⟩
        by_cases h : docxCleanJoin texts = ""
        · refine Or.inr ⟨h, ?_⟩
          show (if (docxCleanJoin texts == "") = true
            then "[DOCX: No text content found]" else docxCleanJoin texts) =
            "[DOCX: No text content found]"
          rw [if_pos (by simp [h])]
        · refine Or.inl ?_
          show (if (docxCleanJoin texts == "") = true
            then "[DOCX: No text content found]" else docxCleanJoin texts) =
            docxCleanJoin texts
          rw [if_neg (by simp [h])]

/-! ### C4: allow-list enforcement -/

/-- Folders outside the allow-list contribute nothing: the folder loop
computes the same result on the listing filtered to the allow-list. -/
theorem runFolders_filter (fs : List DriveFolder) (st : LoopState) :
    runFolders (fs.filter fun g => target_folders.contains g.name) st =
      runFolders fs st := by
  induction fs generalizing st with
  | nil => rfl
  | cons f rest ih =>
    rw [List.filter_cons]
    by_cases h : target_folders.contains f.name = true
    · rw [if_pos h]
      show runFolders (f :: _) st = runFolders (f :: rest) st
      simp only [runFolders]
      rw [if_pos h, if_pos h]
      cases hf : f.files with
      | error e => rfl
      | ok l => exact ih _
    · rw [if_neg h]
      conv_rhs => rw [runFolders]
      rw [if_neg h]
      exact ih st
/-- The folder loop never records a name outside the allow-list in
`loaded_folders`. -/
theorem runFolders_loaded_allowed (n : String)
    (hn : target_folders.contains n = false)
    (fs : List DriveFolder) (st : LoopState) (h : n ∉ st.loaded_folders) :
    n ∉ (runFolders fs st).1.loaded_folders := by
  induction fs generalizing st with
  | nil => exact h
  | cons f rest ih =>
    by_cases hc : target_folders.contains f.name = true
    · have hne : n ∉ st.loaded_folders ++ [f.name] := by
        intro hmem
        rcases List.mem_append.mp hmem with hm | hm
        · exact h hm
        · rw [List.mem_singleton] at hm
          rw [hm] at hn
          rw [hn] at hc
          exact Bool.false_ne_true hc
      simp only [runFolders]
      rw [if_pos hc]
      cases hf : f.files with
      | error e => exact hne
      | ok l => exact ih _ hne
    · simp only [runFolders]
      rw [if_neg hc]
      exact ih st h

/-- C4: a source folder named outside the fixed allow-list is never
included: the assembled payload is unchanged when all such folders are
removed from the listing (so neither their names nor any content of
their files reaches `foldersLoaded` or `content`), and the folder
loop never records a non-allow-listed name in `loaded_folders`. -/
theorem allow_list_enforced (fs : List DriveFolder) (n : String)
    (hn : target_folders.contains n = false) :
    load_vault_content (.folders fs) =
      load_vault_content (.folders (fs.filter fun g => target_folders.contains g.name)) ∧
    ∀ st : LoopState, n ∉ st.loaded_folders →
      n ∉ (runFolders fs st).1.loaded_folders := by
  constructor
  · simp only [load_vault_content]
    rw [runFolders_filter]
  · exact fun st h => runFolders_loaded_allowed n hn fs st h

/-- Witness for C4: a concrete folder named outside the allow-list. -/
theorem allow_list_enforced_witness :
    (load_vault_content (.folders
        [{ name := "NotInList", files := .ok [] }]) =
      load_vault_content (.folders
        ([{ name := "NotInList", files := .ok [] }].filter
          fun g => target_folders.contains g.name))) ∧
    "NotInList" ∉ (runFolders [{ name := "NotInList", files := .ok [] }]
      { vault_content := vaultHeader, loaded_folders := [], total_files := 0 }).1.loaded_folders := by
  have h := allow_list_enforced [{ name := "NotInList", files := .ok [] }]
    "NotInList" (by decide)
  exact ⟨h.1, h.2 _ (by simp)⟩

/-! ### C6: the assembler tolerates per-file failures -/

/-- Concatenation of a list of strings. -/
def concatAll : List String → String
  | [] => ""
  | s :: rest => s ++ concatAll rest

/-- The files of a folder whose listing succeeded. -/
def filesOf (f : DriveFolder) : List DriveFile :=
  match f.files with
  | .ok l => l
  | .error _ => []

/-- The contribution of one retained folder to the buffer: its banner
followed by one section per file. -/
def folderBlock (f : DriveFolder) : String :=
  "\n--- FOLDER: " ++ f.name ++ " ---\n" ++ concatAll ((filesOf f).map fileSection)

/-- The file loop appends exactly one section per file and never
aborts. -/
theorem runFiles_eq (l : List DriveFile) (c : String) :
    runFiles l c = c ++ concatAll (l.map fileSection) := by
  induction l generalizing c with
  | nil => exact (String.append_empty c).symm
  | cons f t ih =>
    show runFiles t (c ++ fileSection f) = _
    rw [ih]
    simp [concatAll, String.append_assoc]

/-- Any member of a string list occurs inside its concatenation. -/
theorem concatAll_split (m : List String) (x : String) (hx : x ∈ m) :
    ∃ p q, concatAll m = p ++ x ++ q := by
  induction m with
  | nil => cases hx
  | cons a t ih =>
    rcases List.mem_cons.mp hx with rfl | hxt
    · exact ⟨"", concatAll t, by simp [concatAll]⟩
    · obtain ⟨p, q, hpq⟩ := ih hxt
      exact ⟨a ++ p, q, by simp [concatAll, hpq, String.append_assoc]⟩

/-- An occurrence survives appending on the right. -/
theorem split_append_right {Y x : String} (h : ∃ p q, Y = p ++ x ++ q)
    (B : String) : ∃ p q, Y ++ B = p ++ x ++ q := by
  obtain ⟨p, q, rfl⟩ := h
  exact ⟨p, q ++ B, by simp [String.append_assoc]⟩

/-- An occurrence survives appending on the left. -/
theorem split_append_left {Y x : String} (h : ∃ p q, Y = p ++ x ++ q)
    (A : String) : ∃ p q, A ++ Y = p ++ x ++ q := by
  obtain ⟨p, q, rfl⟩ := h
  exact ⟨A ++ p, q, by simp [String.append_assoc]⟩

/-- Closed form of the folder loop when every folder is allow-listed
and every file listing succeeds: one block per folder, one recorded
name per folder, and `total_files` summing all listed files — no
abort, whatever the individual files do. -/
theorem runFolders_all_ok :
    ∀ fs : List DriveFolder,
    (∀ f ∈ fs, target_folders.contains f.name = true) →
    (∀ f ∈ fs, ∃ l, f.files = .ok l) →
    ∀ st : LoopState,
    runFolders fs st =
      ({ vault_content := st.vault_content ++ concatAll (fs.map folderBlock)
         loaded_folders := st.loaded_folders ++ fs.map fun f => f.name
         total_files := st.total_files + (fs.map fun f => (filesOf f).length).sum },
       none) := by
  intro fs
  induction fs with
  | nil =>
    intro _ _ st
    obtain ⟨a, b, c⟩ := st
    simp [runFolders, concatAll, String.append_empty]
  | cons f rest ih =>
    intro hT hOk st
    have hc := hT f (List.mem_cons_self f rest)
    obtain ⟨l, hf⟩ := hOk f (List.mem_cons_self f rest)
    simp only [runFolders]
    rw [if_pos hc, hf]
    dsimp only
    rw [ih (fun g hg => hT g (List.mem_cons_of_mem f hg))
      (fun g hg => hOk g (List.mem_cons_of_mem f hg))]
    simp [runFiles_eq, concatAll, folderBlock, filesOf, hf,
      String.append_assoc, List.append_assoc, Nat.add_assoc]

/-- Closed form of `load_vault_content` when every folder is
allow-listed and every listing succeeds. -/
theorem load_vault_content_all_ok (fs : List DriveFolder)
    (hT : ∀ f ∈ fs, target_folders.contains f.name = true)
    (hOk : ∀ f ∈ fs, ∃ l, f.files = .ok l) :
    load_vault_content (.folders fs) =
      { vault_content := vaultHeader ++ "\n=== LIVE VAULT FOLDERS LOADED ("
          ++ toString (0 : Nat) ++ " folders) ===\n" ++ concatAll (fs.map folderBlock)
          ++ "\n=== VAULT SUMMARY ===\nFolders: " ++ toString fs.length
          ++ "\nFiles processed: "
          ++ toString (fs.map fun f => (filesOf f).length).sum ++ "\n"
        loaded_folders := fs.map fun f => f.name
        total_files := (fs.map fun f => (filesOf f).length).sum } := by
  simp only [load_vault_content]
  rw [runFolders_all_ok fs hT hOk]
  simp [List.length_map]

/-- C6: over allow-listed folders whose listings succeed, a file
failure never aborts the assembly: `total_files` counts every listed
file, the buffer contains one `=== <fileName> ===` section per file —
the extracted text for successes and the inline diagnostic for
failures, both delivered by `fileContent` — and the refresh response
reports `vault_status = operational` (never an error status). -/
theorem assembler_tolerates_file_failures (fs : List DriveFolder)
    (hT : ∀ f ∈ fs, target_folders.contains f.name = true)
    (hOk : ∀ f ∈ fs, ∃ l, f.files = .ok l) :
    (load_vault_content (.folders fs)).total_files =
      (fs.map fun f => (filesOf f).length).sum ∧
    (∀ f ∈ fs, ∀ g ∈ filesOf f, ∀ c, fileContent g = some c →
      ∃ pre post, (load_vault_content (.folders fs)).vault_content =
        pre ++ ("\n=== " ++ g.name ++ " ===\n" ++ c ++ "\n") ++ post) ∧
    ∀ (J : JsonFns) (G : GzipFns) (B : B64Fns) (cost : Nat → String) (kv : KVEnv),
      (vault_do_GET J G B cost true (.folders fs) kv none).body.get? "vault_status" =
        some (.str "operational") ∧
      (vault_do_GET J G B cost true (.folders fs) kv none).body.get? "status" =
        some (.str "refreshed") ∧
      (vault_do_GET J G B cost true (.folders fs) kv none).body.get? "total_files" =
        some (.num ((fs.map fun f => (filesOf f).length).sum)) := by
  have hl := load_vault_content_all_ok fs hT hOk
  refine ⟨by rw [hl], ?_, ?_⟩
  · intro f hf g hg c hc
    have hsec : fileSection g = "\n=== " ++ g.name ++ " ===\n" ++ c ++ "\n" := by
      unfold fileSection
      rw [hc]
    have hBlock : ∃ p q, folderBlock f = p ++ fileSection g ++ q := by
      obtain ⟨p, q, hpq⟩ := concatAll_split ((filesOf f).map fileSection)
        (fileSection g) (List.mem_map_of_mem _ hg)
      refine ⟨"\n--- FOLDER: " ++ f.name ++ " ---\n" ++ p, q, ?_⟩
      unfold folderBlock
      rw [hpq]
      simp [String.append_assoc]
    have hY : ∃ p q, concatAll (fs.map folderBlock) = p ++ fileSection g ++ q := by
      obtain ⟨p1, q1, h1⟩ := concatAll_split (fs.map folderBlock) (folderBlock f)
        (List.mem_map_of_mem _ hf)
      obtain ⟨p2, q2, h2⟩ := hBlock
      refine ⟨p1 ++ p2, q2 ++ q1, ?_⟩
      rw [h1, h2]
      simp [String.append_assoc]
    rw [hl]
    dsimp only
    obtain ⟨p, q, hpq⟩ :=
      split_append_right (split_append_right (split_append_right (split_append_right
        (split_append_right (split_append_left hY
          (vaultHeader ++ "\n=== LIVE VAULT FOLDERS LOADED (" ++ toString (0 : Nat)
            ++ " folders) ===\n"))
        "\n=== VAULT SUMMARY ===\nFolders: ") (toString fs.length))
        "\nFiles processed: ") (toString (fs.map fun f => (filesOf f).length).sum)) "\n"
    refine ⟨p, q, ?_⟩
    rw [← hsec]
    exact hpq
  · intro J G B cost kv
    refine ⟨rfl, rfl, ?_⟩
    have hproj : (vault_do_GET J G B cost true (.folders fs) kv none).body.get?
        "total_files" = some (.num (load_vault_content (.folders fs)).total_files) := rfl
    rw [hproj, hl]

/-- A plain-text file that reads fine. -/
def fileCharter : DriveFile :=
  { name := "charter.txt", mimeType := "text/plain", size := "13"
    getMedia := .ok { utf8 := .ok "alpha content", docx := { zip := .error "unused" } }
    exportPlain := .error "unused" }

/-- A DOCX file whose archive open fails, so extraction produces an
inline diagnostic. -/
def fileNotes : DriveFile :=
  { name := "notes.docx"
    mimeType := "application/vnd.openxmlformats-officedocument.wordprocessingml.document"
    size := "20"
    getMedia := .ok { utf8 := .error "unused"
                      docx := { zip := .error "File is not a zip file" } }
    exportPlain := .error "unused" }

/-- A second healthy plain-text file. -/
def filePlan : DriveFile :=
  { name := "plan.txt", mimeType := "text/plain", size := "5"
    getMedia := .ok { utf8 := .ok "gamma", docx := { zip := .error "unused" } }
    exportPlain := .error "unused" }

/-- The first allow-listed folder of Scenario C. -/
def folderShell : DriveFolder :=
  { name := "00_EnforcementShell", files := .ok [fileCharter, fileNotes] }

/-- The second allow-listed folder of Scenario C. -/
def folderCore : DriveFolder :=
  { name := "01_Core_Directives", files := .ok [filePlan] }

/-- Scenario C: two allow-listed folders holding three files, one of
which fails extraction. -/
def scenarioFolders : List DriveFolder := [folderShell, folderCore]

/-- Witness for C6: on Scenario C the assembly reports three files,
keeps a diagnostic section for the failed DOCX, and the refresh
response stays operational. -/
theorem assembler_tolerates_file_failures_witness :
    (load_vault_content (.folders scenarioFolders)).total_files = 3 ∧
    (∃ pre post, (load_vault_content (.folders scenarioFolders)).vault_content =
      pre ++ ("\n=== " ++ "notes.docx" ++ " ===\n"
        ++ "[DOCX text extraction failed: File is not a zip file]" ++ "\n") ++ post) ∧
    (vault_do_GET jsonNone gzipNone b64None cost0 true (.folders scenarioFolders)
      { available := false, value := none } none).body.get? "vault_status" =
      some (.str "operational") := by
  have hT : ∀ f ∈ scenarioFolders, target_folders.contains f.name = true := by decide
  have hOk : ∀ f ∈ scenarioFolders, ∃ l, f.files = .ok l := by
    intro f hf
    rcases List.mem_cons.mp hf with rfl | hf2
    · exact ⟨_, rfl⟩
    · rcases List.mem_cons.mp hf2 with rfl | hf3
      · exact ⟨_, rfl⟩
      · cases hf3
  have h := assembler_tolerates_file_failures scenarioFolders hT hOk
  refine ⟨h.1.trans rfl, ?_, (h.2.2 jsonNone gzipNone b64None cost0 _).1⟩
  have hmemf : folderShell ∈ scenarioFolders := List.mem_cons_self _ _
  have hmemg : fileNotes ∈ filesOf folderShell := by
    show fileNotes ∈ [fileCharter, fileNotes]
    exact List.mem_cons_of_mem _ (List.mem_cons_self _ _)
  have hc : fileContent fileNotes =
      some "[DOCX text extraction failed: File is not a zip file]" := by decide
  exact h.2.1 _ hmemf fileNotes hmemg _ hc

/-! ### C2: a failed refresh has no fallback and poisons the cache -/

/-- The payload assembled when the Drive load fails with message
`boom`, under the fixed cost formatter. -/
def errPayloadC2 : JVal := vaultData cost0 (load_vault_content (.failure "boom"))

/-- A `json` instance that round-trips exactly this payload. -/
def jsonErr : JsonFns :=
  { dumps := fun _ => "a"
    loads := fun s => if s = "a" then some errPayloadC2 else none }

/-- A nonempty-prefix append has nonempty character data. -/
theorem append_ne_nil_left (s t : String) (h : s.data ≠ []) :
    (s ++ t).data ≠ [] := by
  rw [String.data_append]
  intro he
  exact h (List.append_eq_nil.mp he).1

/-- A string with nonempty data is `!=` the empty string. -/
theorem str_bne_empty (s : String) (h : s.data ≠ []) : (s != "") = true := by
  rw [bne_iff_ne]
  intro he
  apply h
  rw [he]

/-- C2 counterexample: with an empty, available cache, a refresh whose
Drive load fails answers `vault_status operational` and
`status refreshed` (no FALLBACK status exists in the code), writes the
error payload into the cache, and the next read-only request serves
that payload back with `status success` and the error text as content
— not NEEDS_REFRESH. -/
theorem refresh_failure_counterexample :
    (vault_do_GET jsonErr gzipNone b64None cost0 true (.failure "boom")
        { available := true, value := none } none).body.get? "vault_status" =
      some (.str "operational") ∧
    (vault_do_GET jsonErr gzipNone b64None cost0 true (.failure "boom")
        { available := true, value := none } none).body.get? "vault_status" ≠
      some (.str "FALLBACK") ∧
    (vault_do_GET jsonErr gzipNone b64None cost0 true (.failure "boom")
        { available := true, value := none } none).body.get? "status" =
      some (.str "refreshed") ∧
    (vault_do_GET jsonErr gzipNone b64None cost0 true (.failure "boom")
        { available := true, value := none } none).kv.value = some "a" ∧
    (vault_do_GET jsonErr gzipNone b64None cost0 false (.failure "x")
        (vault_do_GET jsonErr gzipNone b64None cost0 true (.failure "boom")
          { available := true, value := none } none).kv none).body.get? "status" =
      some (.str "success") ∧
    (vault_do_GET jsonErr gzipNone b64None cost0 false (.failure "x")
        (vault_do_GET jsonErr gzipNone b64None cost0 true (.failure "boom")
          { available := true, value := none } none).kv none).body.get?
      "needs_refresh" = none ∧
    (vault_do_GET jsonErr gzipNone b64None cost0 false (.failure "x")
        (vault_do_GET jsonErr gzipNone b64None cost0 true (.failure "boom")
          { available := true, value := none } none).kv none).body.get?
      "vault_content" =
      some (.str (vaultHeader ++ "\n[Google Drive connection error: " ++ "boom"
        ++ "]\n")) := by
  refine ⟨rfl, ?_, rfl, rfl, rfl, rfl, rfl⟩
  intro h
  have h2 : some (JVal.str "operational") = some (JVal.str "FALLBACK") := by
    rw [← h]
    rfl
  injection h2 with h3
  injection h3 with h4
  exact absurd h4 (by decide)

/-- C2 amended: when the document source fails during a refresh, the
handler returns the error-annotated payload — content is the header
plus an inline `[Google Drive connection error: ...]` diagnostic,
`folders_loaded` is the error sentinel, `vault_status` is
`operational` and `status` is `refreshed`; there is no FALLBACK status
and no static fallback payload — and with an available cache it DOES
overwrite the cache entry with this error payload, so a subsequent
read-only request (given that the codec round-trips on it, cf. C1)
serves the error payload back with `status success` instead of
reporting NEEDS_REFRESH. -/
theorem refresh_failure_caches_error (J : JsonFns) (G : GzipFns) (B : B64Fns)
    (cost : Nat → String) (msg : String) (kv : KVEnv)
    (hav : kv.available = true)
    (hrt : readStored J G B
        (storedValue J G B (vaultData cost (load_vault_content (.failure msg)))) =
      some (vaultData cost (load_vault_content (.failure msg)))) :
    (vault_do_GET J G B cost true (.failure msg) kv none).body.get? "vault_status" =
      some (.str "operational") ∧
    (vault_do_GET J G B cost true (.failure msg) kv none).body.get? "status" =
      some (.str "refreshed") ∧
    (vault_do_GET J G B cost true (.failure msg) kv none).body.get? "vault_content" =
      some (.str (vaultHeader ++ "\n[Google Drive connection error: " ++ msg
        ++ "]\n")) ∧
    (vault_do_GET J G B cost true (.failure msg) kv none).body.get? "folders_loaded" =
      some (.arr [.str driveErrorBanner]) ∧
    (vault_do_GET J G B cost true (.failure msg) kv none).kv.value =
      some (storedValue J G B (vaultData cost (load_vault_content (.failure msg)))) ∧
    ∀ drive2 : DriveOutcome,
      (vault_do_GET J G B cost false drive2
          (vault_do_GET J G B cost true (.failure msg) kv none).kv none).body =
        cachedResponse (vaultData cost (load_vault_content (.failure msg))) ∧
      (vault_do_GET J G B cost false drive2
          (vault_do_GET J G B cost true (.failure msg) kv none).kv none).body.get?
        "status" = some (.str "success") ∧
      (vault_do_GET J G B cost false drive2
          (vault_do_GET J G B cost true (.failure msg) kv none).kv none).body.get?
        "vault_status" = some (.str "operational") := by
  obtain ⟨av, val⟩ := kv
  have hav2 : av = true := hav
  subst hav2
  refine ⟨rfl, rfl, rfl, rfl, rfl, ?_⟩
  intro drive2
  have hget : get_vault_from_kv J G B
      { available := true, value := some (storedValue J G B
        (vaultData cost (load_vault_content (.failure msg)))) } =
      some (vaultData cost (load_vault_content (.failure msg))) := hrt
  have hcond : ((vaultData cost (load_vault_content (.failure msg))).pyTruthy &&
      (vaultData cost (load_vault_content (.failure msg))).isObj &&
      (vaultData cost (load_vault_content (.failure msg))).truthyGet
        "vault_content") = true := by
    have h3 : (vaultData cost (load_vault_content (.failure msg))).truthyGet
        "vault_content" =
        ((vaultHeader ++ "\n[Google Drive connection error: " ++ msg ++ "]\n")
          != "") := rfl
    have h1 : (vaultData cost (load_vault_content (.failure msg))).pyTruthy =
        true := rfl
    have h2 : (vaultData cost (load_vault_content (.failure msg))).isObj =
        true := rfl
    rw [h1, h2, h3, Bool.true_and, Bool.true_and]
    refine str_bne_empty _ ?_
    refine append_ne_nil_left _ _ (append_ne_nil_left _ _
      (append_ne_nil_left _ _ ?_))
    decide
  have hbody : (vault_do_GET J G B cost false drive2
      { available := true, value := some (storedValue J G B
        (vaultData cost (load_vault_content (.failure msg)))) } none).body =
      cachedResponse (vaultData cost (load_vault_content (.failure msg))) := by
    show (match get_vault_from_kv J G B
        { available := true, value := some (storedValue J G B
          (vaultData cost (load_vault_content (.failure msg)))) } with
      | some cv =>
        if cv.pyTruthy && cv.isObj && cv.truthyGet "vault_content" then
          cachedResponse cv
        else needsRefreshResponse
      | none => needsRefreshResponse) =
      cachedResponse (vaultData cost (load_vault_content (.failure msg)))
    rw [hget]
    dsimp only
    rw [if_pos hcond]
  have hkv : (vault_do_GET J G B cost true (.failure msg)
      { available := true, value := val } none).kv =
      { available := true, value := some (storedValue J G B
        (vaultData cost (load_vault_content (.failure msg)))) } := rfl
  refine ⟨?_, ?_, ?_⟩
  · rw [hkv]
    exact hbody
  · rw [hkv, hbody]
    rfl
  · rw [hkv, hbody]
    rfl

/-- Witness for the amended C2: the concrete failed refresh writes the
error payload, and the next read returns it as a success. -/
theorem refresh_failure_caches_error_witness :
    (vault_do_GET jsonErr gzipNone b64None cost0 true (.failure "boom")
        { available := true, value := none } none).kv.value =
      some (storedValue jsonErr gzipNone b64None
        (vaultData cost0 (load_vault_content (.failure "boom")))) ∧
    (vault_do_GET jsonErr gzipNone b64None cost0 false (.failure "x")
        (vault_do_GET jsonErr gzipNone b64None cost0 true (.failure "boom")
          { available := true, value := none } none).kv none).body.get? "status" =
      some (.str "success") := by
  have h := refresh_failure_caches_error jsonErr gzipNone b64None cost0 "boom"
    { available := true, value := none } rfl (by rfl)
  exact ⟨h.2.2.2.2.1, (h.2.2.2.2.2 (.failure "x")).2.1⟩
